import Mathlib

/-!
Verification development for the AFNMS backend-routing and
response-normalization core (`src/model_router.py`,
`src/ai_adapters/base_adapter.py` and the five concrete adapters,
`src/config_manager.py`).

Python values are embedded shallowly: machine floats become `ℚ` (the code
performs no float arithmetic beyond literals, incremental averaging and
`float()` coercion, so exact rationals are faithful for every property
stated here), `time.time()` timestamps become explicit `ℚ` parameters,
dictionaries decoded from JSON become association lists, and remote calls
become explicit outcome parameters (`Except`/`ProbeOutcome`), since the
code under verification only branches on whether the call returned text or
raised.
-/

/-- Embedding of the values `json.loads` can produce.  Object members are
kept in textual order; Python dict semantics (later duplicate keys win) are
reproduced by the lookup function `jget` below.  The non-standard
`NaN`/`Infinity` extensions of Python's decoder are not modelled (no
routed input contains them). -/
inductive Json where
  | null
  | bool (b : Bool)
  | num (q : ℚ)
  | str (s : String)
  | arr (xs : List Json)
  | obj (kvs : List (String × Json))

/-- JSON whitespace, as accepted between tokens by `json.loads`. -/
def isJsonWs (c : Char) : Bool :=
  c == ' ' || c == '\t' || c == '\n' || c == '\r'

/-- Drop leading JSON whitespace. -/
def skipWs : List Char → List Char
  | c :: cs => if isJsonWs c then skipWs cs else c :: cs
  | [] => []

/-- Value of one hex digit, used for `\uXXXX` escapes. -/
def hexVal (c : Char) : Option ℕ :=
  if c.isDigit then some (c.toNat - '0'.toNat)
  else if 'a' ≤ c ∧ c ≤ 'f' then some (c.toNat - 'a'.toNat + 10)
  else if 'A' ≤ c ∧ c ≤ 'F' then some (c.toNat - 'A'.toNat + 10)
  else none

/-- Single-character JSON string escapes. -/
def escChar : Char → Option Char
  | 'n' => some '\n'
  | 't' => some '\t'
  | 'r' => some '\r'
  | 'b' => some (Char.ofNat 8)
  | 'f' => some (Char.ofNat 12)
  | '"' => some '"'
  | '\\' => some '\\'
  | '/' => some '/'
  | _ => none

/-- Body of a JSON string literal (after the opening quote): returns the
decoded characters and the input after the closing quote.  Raw control
characters are rejected, as by `json.loads` with its default `strict=True`.
`\uXXXX` escapes decode to the single code point (surrogate pairs are not
combined; no routed input uses them). -/
def parseStrChars : ℕ → List Char → Option (List Char × List Char)
  | 0, _ => none
  | fuel + 1, cs =>
    match cs with
    | [] => none
    | '"' :: r => some ([], r)
    | '\\' :: r =>
      match r with
      | [] => none
      | e :: r' =>
        if e == 'u' then
          match r' with
          | a :: b :: c :: d :: r'' =>
            match hexVal a, hexVal b, hexVal c, hexVal d with
            | some ha, some hb, some hc, some hd =>
              match parseStrChars fuel r'' with
              | some (s, rest) =>
                  some (Char.ofNat (4096 * ha + 256 * hb + 16 * hc + hd) :: s, rest)
              | none => none
            | _, _, _, _ => none
          | _ => none
        else
          match escChar e with
          | some c =>
            match parseStrChars fuel r' with
            | some (s, rest) => some (c :: s, rest)
            | none => none
          | none => none
    | c :: r =>
      if c.toNat < 32 then none
      else
        match parseStrChars fuel r with
        | some (s, rest) => some (c :: s, rest)
        | none => none

/-- Numeric value of a digit character. -/
def digitVal (c : Char) : ℕ := c.toNat - '0'.toNat

/-- Decimal value of a digit string. -/
def digitsToNat (ds : List Char) : ℕ :=
  ds.foldl (fun n c => 10 * n + digitVal c) 0

/-- Exponent part of a JSON number (after `e`/`E`). -/
def parseExp (cs : List Char) : Option (ℤ × List Char) :=
  let (sgn, cs₁) : ℤ × List Char :=
    match cs with
    | '+' :: r => (1, r)
    | '-' :: r => (-1, r)
    | _ => (1, cs)
  match cs₁.span (·.isDigit) with
  | ([], _) => none
  | (ds, rest) => some (sgn * (digitsToNat ds : ℤ), rest)

/-- Apply a parsed exponent to an already-parsed mantissa. -/
def applyExp (q : ℚ) (cs : List Char) : Option (ℚ × List Char) :=
  match parseExp cs with
  | none => none
  | some (e, rest) => some (q * (10 : ℚ) ^ e, rest)

/-- Optional exponent suffix of a JSON number. -/
def finishNum (neg : Bool) (base : ℚ) (cs : List Char) : Option (ℚ × List Char) :=
  let signed : ℚ := if neg then -base else base
  match cs with
  | 'e' :: r => applyExp signed r
  | 'E' :: r => applyExp signed r
  | _ => some (signed, cs)

/-- A JSON number.  As in `json.loads`, a leading `0` ends the integer
part (so `01` parses the number `0` and leaves `1` unconsumed, which the
caller then rejects), a fraction dot requires at least one digit, and a
dangling exponent marker fails the whole parse. -/
def parseNumber (cs : List Char) : Option (ℚ × List Char) :=
  let (neg, cs₁) : Bool × List Char :=
    match cs with
    | '-' :: r => (true, r)
    | _ => (false, cs)
  match cs₁ with
  | [] => none
  | c :: cs₂ =>
    if c.isDigit then
      let (ipds, r₁) : List Char × List Char :=
        if c == '0' then ([c], cs₂) else cs₁.span (·.isDigit)
      let ip : ℕ := digitsToNat ipds
      match r₁ with
      | '.' :: r =>
        match r.span (·.isDigit) with
        | ([], _) => none
        | (ds, r₂) =>
          finishNum neg ((ip : ℚ) + (digitsToNat ds : ℚ) / (10 : ℚ) ^ ds.length) r₂
      | _ => finishNum neg (ip : ℚ) r₁
    else none

mutual

/-- One JSON value, fuel-bounded recursive descent mirroring the grammar
accepted by `json.loads`. -/
def parseVal : ℕ → List Char → Option (Json × List Char)
  | 0, _ => none
  | fuel + 1, cs =>
    match skipWs cs with
    | [] => none
    | 'n' :: 'u' :: 'l' :: 'l' :: r => some (.null, r)
    | 't' :: 'r' :: 'u' :: 'e' :: r => some (.bool true, r)
    | 'f' :: 'a' :: 'l' :: 's' :: 'e' :: r => some (.bool false, r)
    | '"' :: r =>
      match parseStrChars fuel r with
      | some (s, r') => some (.str (String.mk s), r')
      | none => none
    | '[' :: r =>
      match skipWs r with
      | ']' :: r' => some (.arr [], r')
      | r' =>
        match parseElems fuel r' with
        | some (xs, r'') => some (.arr xs, r'')
        | none => none
    | '\x7b' :: r =>
      match skipWs r with
      | '\x7d' :: r' => some (.obj [], r')
      | r' =>
        match parseMembers fuel r' with
        | some (kvs, r'') => some (.obj kvs, r'')
        | none => none
    | cs' =>
      match parseNumber cs' with
      | some (q, r) => some (.num q, r)
      | none => none

/-- Comma-separated array elements up to the closing bracket. -/
def parseElems : ℕ → List Char → Option (List Json × List Char)
  | 0, _ => none
  | fuel + 1, cs =>
    match parseVal fuel cs with
    | none => none
    | some (v, r) =>
      match skipWs r with
      | ',' :: r' =>
        match parseElems fuel r' with
        | some (vs, r'') => some (v :: vs, r'')
        | none => none
      | ']' :: r' => some ([v], r')
      | _ => none

/-- Comma-separated object members up to the closing brace. -/
def parseMembers : ℕ → List Char → Option (List (String × Json) × List Char)
  | 0, _ => none
  | fuel + 1, cs =>
    match skipWs cs with
    | '"' :: r =>
      match parseStrChars fuel r with
      | none => none
      | some (k, r₁) =>
        match skipWs r₁ with
        | ':' :: r₂ =>
          match parseVal fuel r₂ with
          | none => none
          | some (v, r₃) =>
            match skipWs r₃ with
            | ',' :: r₄ =>
              match parseMembers fuel r₄ with
              | some (kvs, r₅) => some ((String.mk k, v) :: kvs, r₅)
              | none => none
            | '\x7d' :: r₄ => some ([(String.mk k, v)], r₄)
            | _ => none
        | _ => none
    | _ => none

end

/-- `json.loads`: one value, then only trailing whitespace (anything more
is Python's `Extra data` error and fails the decode).  The fuel
`2 * length + 2` dominates the call depth: every other recursive call
consumes at least one input character. -/
def jsonParse (s : String) : Option Json :=
  match parseVal (2 * s.length + 2) s.data with
  | some (v, rest) => if (skipWs rest).isEmpty then some v else none
  | none => none

/-- `AIAnalysisResult` (dataclass in `base_adapter.py`).  The dataclass is
untyped at runtime: on the structured-decode path the text-like fields
receive whatever JSON value `data.get` returned, so those fields are
embedded as `Json`; the numeric fields always pass through `float()` (or
are numeric literals) and are embedded as `ℚ`. -/
structure AIAnalysisResult where
  impact_score : ℚ
  market_prediction : Json
  trading_suggestion : Json
  sentiment : Json
  confidence : ℚ
  key_points : Json

/-- Python dict lookup for a decoded JSON object: later duplicate keys
override earlier ones, hence the lookup on the reversed member list. -/
def jget (kvs : List (String × Json)) (k : String) : Option Json :=
  List.lookup k kvs.reverse

/-- `data.get(key, default)`. -/
def jgetD (kvs : List (String × Json)) (k : String) (d : Json) : Json :=
  (jget kvs k).getD d

/-- Python `float(x)` on a decoded JSON value: numbers pass through,
booleans coerce to 1/0, anything else raises `TypeError` (modelled as
`none`; the caller catches it).  `float()` on a numeric *string* would
also succeed in Python but is not modelled — no claim in this development
depends on string-typed numeric fields. -/
def pyFloat : Json → Option ℚ
  | .num q => some q
  | .bool b => some (if b then 1 else 0)
  | _ => none

/-- Python truthiness (`if not x`) of a decoded JSON value. -/
def jsonTruthy : Json → Bool
  | .null => false
  | .bool b => b
  | .num q => decide (q ≠ 0)
  | .str s => !s.data.isEmpty
  | .arr xs => !xs.isEmpty
  | .obj kvs => !kvs.isEmpty

/-- `x in ['positive', 'negative', 'neutral']` on a field that may hold any
JSON value: only the three string literals compare equal. -/
def sentimentOk : Json → Bool
  | .str s => s == "positive" || s == "negative" || s == "neutral"
  | _ => false

/-- Substring containment, Python's `needle in hay` on `str`. -/
def strContains (hay needle : String) : Bool :=
  decide (needle.data <:+: hay.data)

/-- Python `str.lower()`, as a per-character map (ASCII case folding; the
Chinese keyword markers are unaffected by either implementation). -/
def pyLower (s : String) : String :=
  String.mk (s.data.map Char.toLower)

namespace BaseAIAdapter

/-- The heuristic fallback of the Normalizer
(`BaseAIAdapter._create_fallback_result`, `base_adapter.py` lines
123-147): keyword-scored impact, keyword sentiment, bounded preview of the
raw text, fixed suggestion, confidence 0.4, one synthetic key point.
`str.lower()` is modelled per-character (ASCII case folding; the Chinese
markers are unaffected). -/
def create_fallback_result (response : String) : AIAnalysisResult :=
  let rl := pyLower response
  let impact : ℚ :=
    if strContains rl "重大" || strContains rl "significant" ||
       strContains rl "major" || strContains rl "critical" then 0.8
    else if strContains rl "轻微" || strContains rl "minor" ||
            strContains rl "limited" || strContains rl "small" then 0.3
    else 0.5
  let sent : String :=
    if strContains rl "积极" || strContains rl "positive" ||
       strContains rl "bullish" || strContains rl "up" then "positive"
    else if strContains rl "消极" || strContains rl "negative" ||
            strContains rl "bearish" || strContains rl "down" then "negative"
    else "neutral"
  { impact_score := impact,
    market_prediction :=
      .str (if 300 < response.length
            then String.mk (response.data.take 300) ++ "..."
            else response),
    trading_suggestion := .str "请基于分析结果谨慎投资，注意风险控制",
    sentiment := .str sent,
    confidence := 0.4,
    key_points := .arr [.str "AI解析异常，建议人工审核"] }

/-- The span matched by `re.search(r'\x7b.*\x7d', response, re.DOTALL)`:
the *leftmost, greedy* match runs from the first `\x7b` in the text to the
last `\x7d` (provided that `\x7d` comes after the `\x7b`); `.` with
`DOTALL` matches every character including newlines.  This is NOT the
first balanced span — see `specFirstBalancedSpan` below. -/
def greedyJsonSpan (s : String) : Option String :=
  let t := s.data.dropWhile (fun c => c != '\x7b')
  let u := (t.reverse.dropWhile (fun c => c != '\x7d')).reverse
  if u.isEmpty then none else some (String.mk u)

/-- The structured branch of `_parse_response` (lines 109-116): fields are
taken verbatim from the decoded object, missing fields coerced to defaults
(impact 0.5, prediction/suggestion empty, sentiment neutral, confidence
0.5, key points empty).  `none` models the `float()` coercion raising,
which the enclosing `try` converts into the heuristic path.  Note: no
clamping is applied. -/
def build_from_data (kvs : List (String × Json)) : Option AIAnalysisResult :=
  match pyFloat (jgetD kvs "impact_score" (.num 0.5)),
        pyFloat (jgetD kvs "confidence" (.num 0.5)) with
  | some iq, some cq =>
    some { impact_score := iq,
           market_prediction := jgetD kvs "market_prediction" (.str ""),
           trading_suggestion := jgetD kvs "trading_suggestion" (.str ""),
           sentiment := jgetD kvs "sentiment" (.str "neutral"),
           confidence := cq,
           key_points := jgetD kvs "key_points" (.arr []) }
  | _, _ => none

/-- `BaseAIAdapter._parse_response` (lines 97-121): greedy regex span,
`json.loads`, verbatim field extraction; any failure in that chain falls
through to the heuristic `create_fallback_result`.  A span that decodes to
a non-object would make `data.get` raise and fall through likewise (it
cannot actually occur: the span starts with an opening brace). -/
def parse_response (s : String) : AIAnalysisResult :=
  match greedyJsonSpan s with
  | some t =>
    match jsonParse t with
    | some (.obj kvs) =>
      match build_from_data kvs with
      | some r => r
      | none => create_fallback_result s
    | _ => create_fallback_result s
  | none => create_fallback_result s

end BaseAIAdapter

/-- The first balanced top-level brace span, as the SPEC words the
Normalizer's extraction step ("locate the first balanced top-level
span"); defined only to be compared against the code's `greedyJsonSpan`.
Scans from the first opening brace and returns the prefix on which the
brace depth first returns to zero. -/
def balancedTake (depth : ℕ) : List Char → Option (List Char)
  | [] => none
  | c :: cs =>
    if c == '\x7b' then (balancedTake (depth + 1) cs).map (c :: ·)
    else if c == '\x7d' then
      if depth = 1 then some [c]
      else (balancedTake (depth - 1) cs).map (c :: ·)
    else (balancedTake depth cs).map (c :: ·)

/-- Spec's wording of the extraction step (refinement comparison only). -/
def specFirstBalancedSpan (s : String) : Option String :=
  match s.data.dropWhile (fun c => c != '\x7b') with
  | [] => none
  | t => (balancedTake 0 t).map String.mk

/-- The five concrete adapter classes registered in
`ModelRouter._adapter_classes`. -/
inductive AdapterKind where
  | openai
  | claude
  | gemini
  | openrouter
  | grok

/-- The literal prefix of the degraded result's `market_prediction` in each
concrete adapter's `except` branch. -/
def degraded_lead : AdapterKind → String
  | .openai => "AI分析服务暂时不可用: "
  | .claude => "Claude AI分析服务暂时不可用: "
  | .gemini => "Gemini AI分析服务暂时不可用: "
  | .openrouter => "OpenRouter分析服务暂时不可用: "
  | .grok => "Grok AI分析服务暂时不可用: "

/-- The degraded `AIAnalysisResult` each concrete adapter returns when the
remote call (or anything else inside its `try`) raises, e.g.
`openai_adapter.py` lines 55-62; the five adapters differ only in the
prediction prefix. -/
def degraded_result (k : AdapterKind) (e : String) : AIAnalysisResult :=
  { impact_score := 0.3,
    market_prediction := .str (degraded_lead k ++ e),
    trading_suggestion := .str "请等待服务恢复后再次分析，谨慎投资",
    sentiment := .str "neutral",
    confidence := 0.1,
    key_points := .arr [.str "服务异常", .str "建议人工分析"] }

/-- A concrete adapter's `analyze_news` (e.g. `openai_adapter.py` lines
28-62), as a function of the remote call's outcome: on returned text it
normalizes via `_parse_response`, on any exception it returns the degraded
result instead of raising.  (The usage-stats side effect is modelled
separately by `BaseAIAdapter.update_usage_stats`.) -/
def adapter_analyze_news (k : AdapterKind) (remote : Except String String) :
    AIAnalysisResult :=
  match remote with
  | .ok resp => BaseAIAdapter.parse_response resp
  | .error e => degraded_result k e

/-- `ModelRouter.routing_stats` (`model_router.py` lines 37-43;
`last_health_check` is modelled where health refresh is modelled). -/
structure RoutingStats where
  total_requests : ℕ
  successful_requests : ℕ
  failed_requests : ℕ
  fallback_count : ℕ

/-- The zeroed counters installed by `ModelRouter.__init__`. -/
def initStats : RoutingStats := ⟨0, 0, 0, 0⟩

/-- Observable events of one `route()` call's candidate loop: a capability
call, a skip with the failure recorded (exception logged / low-quality
logged), or an accept. -/
inductive RouteEvent where
  | call (id : String)
  | skipError (id : String) (msg : String)
  | skipInvalid (id : String)
  | accept (id : String)

/-- Number of capability calls in a trace. -/
def countCalls (t : List RouteEvent) : ℕ :=
  t.countP fun e => match e with | .call _ => true | _ => false

namespace ModelRouter

/-- `ModelRouter._is_valid_result` (lines 171-192).  The `if not result`
guard is omitted: every embedded producer returns a constructed result,
never `None`. -/
def is_valid_result (r : AIAnalysisResult) : Bool :=
  jsonTruthy r.market_prediction && jsonTruthy r.trading_suggestion &&
  decide (0 ≤ r.impact_score) && decide (r.impact_score ≤ 1) &&
  decide (0 ≤ r.confidence) && decide (r.confidence ≤ 1) &&
  sentimentOk r.sentiment

/-- `ModelRouter._create_fallback_result` (lines 194-208). -/
def create_fallback_result (error_message : String) : AIAnalysisResult :=
  { impact_score := 0.3,
    market_prediction := .str ("AI分析服务暂时不可用: " ++ error_message),
    trading_suggestion :=
      .str "由于AI分析服务异常，建议暂停自动交易，等待服务恢复后再做决策",
    sentiment := .str "neutral",
    confidence := 0.1,
    key_points :=
      .arr [.str "AI服务异常", .str "建议人工分析", .str "谨慎投资",
            .str "等待服务恢复"] }

/-- The candidate loop of `ModelRouter.analyze_news` (lines 93-108): each
candidate is the pair of its id and the outcome of `await
adapter.analyze_news(...)` for this call (raise, or a returned result).
Returns the event trace and the first valid result, if any: an exception
or an invalid result is skipped and the loop advances. -/
def routeLoop :
    List (String × Except String AIAnalysisResult) →
    List RouteEvent × Option AIAnalysisResult
  | [] => ([], none)
  | (id, out) :: rest =>
    match out with
    | .error e =>
      let (t, r) := routeLoop rest
      (.call id :: .skipError id e :: t, r)
    | .ok res =>
      if is_valid_result res then ([.call id, .accept id], some res)
      else
        let (t, r) := routeLoop rest
        (.call id :: .skipInvalid id :: t, r)

/-- `ModelRouter.analyze_news` (lines 80-115), given the healthy candidate
list produced by `_get_healthy_adapters` (modelled separately as
`get_healthy_adapters`; the staleness-triggered health refresh inside it
touches only health state, not these counters).  Increments
`total_requests`; empty candidates yield the fallback and one failed
request; a valid result yields a success; exhaustion yields the fallback
plus one failed request and one fallback count. -/
def analyze_news (cands : List (String × Except String AIAnalysisResult))
    (st : RoutingStats) : AIAnalysisResult × RoutingStats × List RouteEvent :=
  let st₁ := { st with total_requests := st.total_requests + 1 }
  match cands with
  | [] =>
    (create_fallback_result "所有AI服务均不可用",
     { st₁ with failed_requests := st₁.failed_requests + 1 }, [])
  | _ :: _ =>
    match routeLoop cands with
    | (t, some r) =>
      (r, { st₁ with successful_requests := st₁.successful_requests + 1 }, t)
    | (t, none) =>
      (create_fallback_result "AI分析失败，请稍后重试",
       { st₁ with failed_requests := st₁.failed_requests + 1,
                  fallback_count := st₁.fallback_count + 1 }, t)

/-- Counters after a sequence of completed `route()` calls. -/
def runCalls (seq : List (List (String × Except String AIAnalysisResult)))
    (st : RoutingStats) : RoutingStats :=
  seq.foldl (fun s c => (analyze_news c s).2.1) st

end ModelRouter

/-- Per-adapter health state (`_is_healthy`, `_last_health_check` in
`BaseAIAdapter.__init__`). -/
structure AdapterHealthState where
  is_healthy : Bool
  last_health_check : ℚ

/-- Outcome of one health probe (`_make_api_request` under
`asyncio.wait_for`): returned text with its elapsed time, or any
exception including the timeout. -/
inductive ProbeOutcome where
  | ok (response : String) (elapsed : ℚ)
  | exn

namespace BaseAIAdapter

/-- `self._health_check_interval = 300` (`base_adapter.py` line 54). -/
def health_check_interval : ℚ := 300

/-- `BaseAIAdapter.health_check` (lines 149-184): within the interval the
cached verdict is returned with no probe; otherwise one probe runs and the
verdict is non-empty stripped text in under 10 s.  Returns (verdict,
new state, number of remote probes issued). -/
def health_check (st : AdapterHealthState) (now : ℚ) (probe : ProbeOutcome) :
    Bool × AdapterHealthState × ℕ :=
  if now - st.last_health_check < health_check_interval then
    (st.is_healthy, st, 0)
  else
    match probe with
    | .ok resp elapsed =>
      let h := !resp.trim.data.isEmpty && decide (elapsed < 10)
      (h, ⟨h, now⟩, 1)
    | .exn => (false, ⟨false, now⟩, 1)

/-- Per-adapter usage counters (`UsageStats` dataclass). -/
structure UsageStats where
  total_requests : ℕ
  successful_requests : ℕ
  failed_requests : ℕ
  total_tokens : ℕ
  last_request_time : ℚ
  avg_response_time : ℚ

/-- `BaseAIAdapter._update_usage_stats` (lines 205-221): always bumps the
total and the timestamp; on success bumps the success count and tokens and
folds the sample into the rolling average; on failure bumps only the
failure count. -/
def update_usage_stats (u : UsageStats) (success : Bool) (response_time : ℚ)
    (tokens : ℕ) (now : ℚ) : UsageStats :=
  let u₁ := { u with total_requests := u.total_requests + 1,
                     last_request_time := now }
  if success then
    let total_successful := u₁.successful_requests + 1
    { u₁ with
      successful_requests := total_successful,
      total_tokens := u₁.total_tokens + tokens,
      avg_response_time :=
        (u₁.avg_response_time * ((total_successful : ℚ) - 1) + response_time) /
          (total_successful : ℚ) }
  else { u₁ with failed_requests := u₁.failed_requests + 1 }

end BaseAIAdapter

/-- The liveness verdict each concrete adapter computes from probe text:
all require non-empty stripped text, and all but Claude additionally
require the probe's expected literal answer to appear
(`'2' in response`, `'4' or '四'`, `'6' or '六'`, `'10' or '十'`). -/
def probe_verdict (k : AdapterKind) (resp : String) : Bool :=
  match k with
  | .openai => !resp.trim.data.isEmpty && strContains resp "2"
  | .claude => !resp.trim.data.isEmpty
  | .gemini => !resp.trim.data.isEmpty &&
      (strContains resp "4" || strContains resp "四")
  | .openrouter => !resp.trim.data.isEmpty &&
      (strContains resp "6" || strContains resp "六")
  | .grok => !resp.trim.data.isEmpty &&
      (strContains resp "10" || strContains resp "十")

/-- A concrete adapter's `health_check` override (e.g.
`openai_adapter.py` lines 110-131): unlike the base implementation it
never consults `_last_health_check` — every call sends one probe, stores
the fresh verdict and timestamp, and on any exception stores unhealthy. -/
def concrete_health_check (k : AdapterKind) (st : AdapterHealthState)
    (now : ℚ) (probe : ProbeOutcome) : Bool × AdapterHealthState × ℕ :=
  match probe with
  | .ok resp _ =>
    let h := probe_verdict k resp
    (h, ⟨h, now⟩, 1)
  | .exn => (false, ⟨false, now⟩, 1)

/-- The verdict `concrete_health_check` stores, as a function of the probe
outcome alone. -/
def fresh_verdict (k : AdapterKind) (probe : ProbeOutcome) : Bool :=
  match probe with
  | .ok resp _ => probe_verdict k resp
  | .exn => false

namespace ModelRouter

/-- `ModelRouter.force_health_check` (lines 243-245) →
`_perform_health_checks` (lines 139-159): runs every configured adapter's
(concrete, override) `health_check`; `_check_adapter_health`'s own
`except` arm (set unhealthy) is subsumed because the concrete
`health_check` already catches everything.  Returns the new states and
the total number of remote probes issued. -/
def force_health_check
    (adapters : List (AdapterKind × AdapterHealthState × ProbeOutcome))
    (now : ℚ) : List AdapterHealthState × ℕ :=
  let outs := adapters.map fun a => concrete_health_check a.1 a.2.1 now a.2.2
  (outs.map (fun o => o.2.1), (outs.map (fun o => o.2.2)).sum)

end ModelRouter

/-- One entry of the `models` list in the AI configuration, restricted to
the fields the routing layer reads; `enabled` is `m.get('enabled', False)`
and `priority` is `m.get('priority', 999)` with the defaults already
applied. -/
structure ModelConfig where
  id : String
  enabled : Bool
  priority : ℕ

/-- Insertion step of a stable sort by priority. -/
def insertByPriority (m : ModelConfig) : List ModelConfig → List ModelConfig
  | [] => [m]
  | x :: xs =>
    if m.priority ≤ x.priority then m :: x :: xs
    else x :: insertByPriority m xs

/-- Python's `sorted(models, key=lambda x: x.get('priority', 999))` is a
stable sort by the priority key; insertion sort from the head is stable in
the same sense and is extensionally the same function. -/
def sortByPriority : List ModelConfig → List ModelConfig
  | [] => []
  | x :: xs => insertByPriority x (sortByPriority xs)

namespace ConfigManager

/-- `ConfigManager.get_ai_models` (`config_manager.py` lines 152-156):
enabled models, stably sorted ascending by priority. -/
def get_ai_models (models : List ModelConfig) : List ModelConfig :=
  sortByPriority (models.filter (·.enabled))

end ConfigManager

namespace ModelRouter

/-- `ModelRouter._get_healthy_adapters` (lines 117-137), after the
staleness-triggered refresh: walks `get_ai_models` in order and keeps the
models whose id has an initialized adapter (`model_id in self.adapters`)
whose `_is_healthy` flag is set.  `adapters` is the router's id-to-adapter
dict, reduced to each adapter's health flag. -/
def get_healthy_adapters (models : List ModelConfig)
    (adapters : List (String × Bool)) : List ModelConfig :=
  (ConfigManager.get_ai_models models).filter
    fun m => (List.lookup m.id adapters).getD false

end ModelRouter

lemma concrete_health_check_probes (k : AdapterKind) (st : AdapterHealthState)
    (now : ℚ) (probe : ProbeOutcome) :
    (concrete_health_check k st now probe).2.2 = 1 := by
  cases probe <;> rfl

lemma concrete_health_check_state (k : AdapterKind) (st : AdapterHealthState)
    (now : ℚ) (probe : ProbeOutcome) :
    (concrete_health_check k st now probe).2.1 = ⟨fresh_verdict k probe, now⟩ := by
  cases probe <;> rfl

lemma concrete_health_check_ret (k : AdapterKind) (st : AdapterHealthState)
    (now : ℚ) (probe : ProbeOutcome) :
    (concrete_health_check k st now probe).1 = fresh_verdict k probe := by
  cases probe <;> rfl

/-- Claim C4: `route()` never raises (the embedding `analyze_news` is a
total function); with an empty candidate list (zero healthy backends) it
returns the deterministic fallback — impact 0.3, confidence 0.1, neutral
sentiment, non-empty key points — and records exactly one failed routing
attempt (and no fallback count, which the code reserves for exhaustion of
a non-empty list). -/
theorem C4_route_total_empty_fallback (st : RoutingStats) :
    (ModelRouter.analyze_news [] st).1 =
      ModelRouter.create_fallback_result "所有AI服务均不可用" ∧
    (ModelRouter.analyze_news [] st).1.impact_score = 0.3 ∧
    (ModelRouter.analyze_news [] st).1.confidence = 0.1 ∧
    (ModelRouter.analyze_news [] st).1.sentiment = Json.str "neutral" ∧
    (ModelRouter.analyze_news [] st).1.key_points =
      Json.arr [.str "AI服务异常", .str "建议人工分析", .str "谨慎投资",
                .str "等待服务恢复"] ∧
    jsonTruthy (ModelRouter.analyze_news [] st).1.key_points = true ∧
    (ModelRouter.analyze_news [] st).2.1.failed_requests =
      st.failed_requests + 1 ∧
    (ModelRouter.analyze_news [] st).2.1.total_requests =
      st.total_requests + 1 ∧
    (ModelRouter.analyze_news [] st).2.1.successful_requests =
      st.successful_requests ∧
    (ModelRouter.analyze_news [] st).2.1.fallback_count = st.fallback_count :=
  ⟨rfl, rfl, rfl, rfl, rfl, rfl, rfl, rfl, rfl, rfl⟩

/-- Claim C9: the rolling average response time is updated only on
successful calls, by `avg' = (avg·(n−1) + sample)/n` with `n` the
successful-call count including the current call; a failed call bumps the
failure and total counters and leaves `avg_response_time` and
`total_tokens` unchanged. -/
theorem C9_usage_stats_update (u : BaseAIAdapter.UsageStats) (rt : ℚ)
    (tokens : ℕ) (now : ℚ) :
    (BaseAIAdapter.update_usage_stats u true rt tokens now).avg_response_time =
      (u.avg_response_time * (((u.successful_requests : ℚ) + 1) - 1) + rt) /
        ((u.successful_requests : ℚ) + 1) ∧
    (BaseAIAdapter.update_usage_stats u true rt tokens now).successful_requests =
      u.successful_requests + 1 ∧
    (BaseAIAdapter.update_usage_stats u true rt tokens now).total_requests =
      u.total_requests + 1 ∧
    (BaseAIAdapter.update_usage_stats u true rt tokens now).failed_requests =
      u.failed_requests ∧
    (BaseAIAdapter.update_usage_stats u true rt tokens now).total_tokens =
      u.total_tokens + tokens ∧
    (BaseAIAdapter.update_usage_stats u false rt tokens now).failed_requests =
      u.failed_requests + 1 ∧
    (BaseAIAdapter.update_usage_stats u false rt tokens now).total_requests =
      u.total_requests + 1 ∧
    (BaseAIAdapter.update_usage_stats u false rt tokens now).successful_requests =
      u.successful_requests ∧
    (BaseAIAdapter.update_usage_stats u false rt tokens now).avg_response_time =
      u.avg_response_time ∧
    (BaseAIAdapter.update_usage_stats u false rt tokens now).total_tokens =
      u.total_tokens := by
  refine ⟨?_, rfl, rfl, rfl, rfl, rfl, rfl, rfl, rfl, rfl⟩
  simp only [BaseAIAdapter.update_usage_stats, if_pos]
  push_cast
  ring_nf

/-- Claim C2 (amended): every `AnalysisResult` produced on the heuristic
fallback path of the Normalizer satisfies `0 ≤ impact_score ≤ 1`,
`confidence = 0.4 ∈ [0,1]` and a sentiment among exactly the three
literals; the structured-decode path (see the counterexample) copies
fields verbatim without clamping, so there the bounds and the
three-literal restriction can fail. -/
theorem C2_heuristic_path_invariants (s : String) :
    0 ≤ (BaseAIAdapter.create_fallback_result s).impact_score ∧
    (BaseAIAdapter.create_fallback_result s).impact_score ≤ 1 ∧
    (BaseAIAdapter.create_fallback_result s).confidence = 0.4 ∧
    0 ≤ (BaseAIAdapter.create_fallback_result s).confidence ∧
    (BaseAIAdapter.create_fallback_result s).confidence ≤ 1 ∧
    sentimentOk (BaseAIAdapter.create_fallback_result s).sentiment = true := by
  unfold BaseAIAdapter.create_fallback_result
  refine ⟨?_, ?_, rfl, by norm_num, by norm_num, ?_⟩ <;>
    dsimp only [] <;> split_ifs <;> first | rfl | norm_num

/-- Claim C2, counterexample: on the structured-decode path the code does
NOT clamp numeric fields and does NOT restrict sentiment — a backend text
whose decoded object carries `impact_score = 2.0` yields a result with
`impact_score = 2 > 1`, and a decoded `sentiment` of `"mixed"` is stored
as free text outside the three-literal set. -/
theorem C2_counterexample_no_clamping :
    (BaseAIAdapter.parse_response "\x7b\"impact_score\": 2.0\x7d").impact_score
      = 2 ∧
    ¬ ((BaseAIAdapter.parse_response
          "\x7b\"impact_score\": 2.0\x7d").impact_score ≤ 1) ∧
    (BaseAIAdapter.parse_response "\x7b\"sentiment\": \"mixed\"\x7d").sentiment
      = Json.str "mixed" ∧
    sentimentOk
      (BaseAIAdapter.parse_response
        "\x7b\"sentiment\": \"mixed\"\x7d").sentiment = false := by
  have h1 :
      (BaseAIAdapter.parse_response
          "\x7b\"impact_score\": 2.0\x7d").impact_score =
        ((2 : ℕ) : ℚ) + ((0 : ℕ) : ℚ) / (10 : ℚ) ^ (1 : ℕ) := rfl
  refine ⟨?_, ?_, rfl, rfl⟩
  · rw [h1]; norm_num
  · rw [h1]; norm_num

/-- Claim C5 (amended): the base-class `health_check` does implement the
cache — a call within 300 s of the last completed probe returns the cached
verdict, issues no probe and leaves the state untouched, so a stale call
followed by a call inside the window issues exactly one probe in total and
the second call repeats the first verdict.  (All five concrete adapters
override `health_check` without this check — see the counterexample — so
for the instantiated backends every call probes.) -/
theorem C5_base_health_check_cache :
    (∀ (st : AdapterHealthState) (now : ℚ) (probe : ProbeOutcome),
       now - st.last_health_check < BaseAIAdapter.health_check_interval →
       BaseAIAdapter.health_check st now probe = (st.is_healthy, st, 0)) ∧
    (∀ (st : AdapterHealthState) (now₁ now₂ : ℚ) (p₁ p₂ : ProbeOutcome),
       ¬ (now₁ - st.last_health_check < BaseAIAdapter.health_check_interval) →
       now₂ - now₁ < BaseAIAdapter.health_check_interval →
       (BaseAIAdapter.health_check st now₁ p₁).2.2 = 1 ∧
       (BaseAIAdapter.health_check
          (BaseAIAdapter.health_check st now₁ p₁).2.1 now₂ p₂).2.2 = 0 ∧
       (BaseAIAdapter.health_check
          (BaseAIAdapter.health_check st now₁ p₁).2.1 now₂ p₂).1 =
         (BaseAIAdapter.health_check st now₁ p₁).1) := by
  constructor
  · intro st now probe h
    unfold BaseAIAdapter.health_check
    rw [if_pos h]
  · intro st now₁ now₂ p₁ p₂ h₁ h₂
    unfold BaseAIAdapter.health_check
    rw [if_neg h₁]
    cases p₁ <;> simp_all

/-- Witness for C5: a concrete state and times inside/outside the window. -/
theorem C5_base_health_check_cache_witness :
    BaseAIAdapter.health_check ⟨true, 0⟩ 100 .exn = (true, ⟨true, 0⟩, 0) ∧
    ((BaseAIAdapter.health_check ⟨true, 0⟩ 400 (.ok "ok" 1)).2.2 = 1 ∧
     (BaseAIAdapter.health_check
        (BaseAIAdapter.health_check ⟨true, 0⟩ 400 (.ok "ok" 1)).2.1
        500 .exn).2.2 = 0 ∧
     (BaseAIAdapter.health_check
        (BaseAIAdapter.health_check ⟨true, 0⟩ 400 (.ok "ok" 1)).2.1
        500 .exn).1 =
       (BaseAIAdapter.health_check ⟨true, 0⟩ 400 (.ok "ok" 1)).1) :=
  ⟨C5_base_health_check_cache.1 ⟨true, 0⟩ 100 .exn
     (by norm_num [BaseAIAdapter.health_check_interval]),
   C5_base_health_check_cache.2 ⟨true, 0⟩ 400 500 (.ok "ok" 1) .exn
     (by norm_num [BaseAIAdapter.health_check_interval])
     (by norm_num [BaseAIAdapter.health_check_interval])⟩

/-- Claim C5, counterexample: every instantiated backend uses its concrete
adapter's `health_check` override, which never consults the cache: two
OpenAI `health_check` calls one second apart (well inside the 300 s
window of the first completed probe) each issue a remote probe — two
probes, not one. -/
theorem C5_counterexample_concrete_always_probes :
    (concrete_health_check .openai ⟨true, 0⟩ 400 (.ok "2" 1)).2.2 +
      (concrete_health_check .openai
        (concrete_health_check .openai ⟨true, 0⟩ 400 (.ok "2" 1)).2.1
        401 (.ok "2" 1)).2.2 = 2 ∧
    (401 : ℚ) -
        (concrete_health_check .openai ⟨true, 0⟩ 400
          (.ok "2" 1)).2.1.last_health_check <
      BaseAIAdapter.health_check_interval := by
  refine ⟨rfl, ?_⟩
  norm_num [concrete_health_check, BaseAIAdapter.health_check_interval]

/-- Claim C6: `force_health_check` bypasses any cached verdict — each
configured backend's concrete `health_check` ignores the stored state
entirely (same output for any cached flag or `last_health_check`
timestamp), always issues exactly one fresh probe, and stores the fresh
verdict and timestamp; over the whole adapter list the forced refresh
issues one probe per backend and rewrites every health state. -/
theorem C6_force_health_check_bypasses_cache :
    (∀ (k : AdapterKind) (st : AdapterHealthState) (now : ℚ)
       (probe : ProbeOutcome),
       (concrete_health_check k st now probe).2.2 = 1) ∧
    (∀ (k : AdapterKind) (st st' : AdapterHealthState) (now : ℚ)
       (probe : ProbeOutcome),
       concrete_health_check k st now probe =
         concrete_health_check k st' now probe) ∧
    (∀ (k : AdapterKind) (st : AdapterHealthState) (now : ℚ)
       (probe : ProbeOutcome),
       (concrete_health_check k st now probe).2.1.is_healthy =
           fresh_verdict k probe ∧
         (concrete_health_check k st now probe).2.1.last_health_check = now ∧
         (concrete_health_check k st now probe).1 = fresh_verdict k probe) ∧
    (∀ (l : List (AdapterKind × AdapterHealthState × ProbeOutcome)) (now : ℚ),
       (ModelRouter.force_health_check l now).2 = l.length ∧
       (ModelRouter.force_health_check l now).1 =
         l.map fun a => ⟨fresh_verdict a.1 a.2.2, now⟩) := by
  refine ⟨concrete_health_check_probes, ?_, ?_, ?_⟩
  · intro k st st' now probe
    cases probe <;> rfl
  · intro k st now probe
    exact ⟨by rw [concrete_health_check_state],
           by rw [concrete_health_check_state],
           concrete_health_check_ret k st now probe⟩
  · intro l now
    constructor
    · show (List.map _ (List.map _ l)).sum = _
      rw [List.map_map]
      induction l with
      | nil => rfl
      | cons a t ih =>
        simp only [List.map_cons, List.sum_cons, Function.comp,
          concrete_health_check_probes, ih, List.length_cons]
        omega
    · show List.map _ (List.map _ l) = _
      rw [List.map_map]
      refine List.map_congr_left fun a _ => ?_
      exact concrete_health_check_state a.1 a.2.1 now a.2.2

lemma degraded_lead_ne_nil (k : AdapterKind) : (degraded_lead k).data ≠ [] := by
  cases k <;> decide

lemma degraded_market_truthy (k : AdapterKind) (e : String) :
    jsonTruthy (degraded_result k e).market_prediction = true := by
  obtain ⟨c, t, hct⟩ : ∃ c t, (degraded_lead k).data = c :: t := by
    cases hd : (degraded_lead k).data with
    | nil => exact absurd hd (degraded_lead_ne_nil k)
    | cons c t => exact ⟨c, t, rfl⟩
  simp [degraded_result, jsonTruthy, String.data_append, hct]

lemma degraded_result_valid (k : AdapterKind) (e : String) :
    ModelRouter.is_valid_result (degraded_result k e) = true := by
  have hm := degraded_market_truthy k e
  simp only [ModelRouter.is_valid_result, Bool.and_eq_true, decide_eq_true_eq]
  refine ⟨⟨⟨⟨⟨⟨hm, rfl⟩, by norm_num [degraded_result]⟩,
    by norm_num [degraded_result]⟩, by norm_num [degraded_result]⟩,
    by norm_num [degraded_result]⟩, rfl⟩

/-- Claim C1: in the candidate loop of `route()`, a candidate whose
capability call raises, or whose normalized result fails
`_is_valid_result`, is skipped with the failure recorded in the trace and
the loop advances to the next candidate; in particular with three healthy
candidates whose first two calls raise and whose third returns a valid
result, `route()` makes exactly three capability calls and returns the
third's result (recording it as a success). -/
theorem C1_failover_chain :
    (∀ (id e : String) (rest : List (String × Except String AIAnalysisResult)),
       ModelRouter.routeLoop ((id, .error e) :: rest) =
         (RouteEvent.call id :: RouteEvent.skipError id e ::
            (ModelRouter.routeLoop rest).1,
          (ModelRouter.routeLoop rest).2)) ∧
    (∀ (id : String) (res : AIAnalysisResult)
       (rest : List (String × Except String AIAnalysisResult)),
       ModelRouter.is_valid_result res = false →
       ModelRouter.routeLoop ((id, .ok res) :: rest) =
         (RouteEvent.call id :: RouteEvent.skipInvalid id ::
            (ModelRouter.routeLoop rest).1,
          (ModelRouter.routeLoop rest).2)) ∧
    (∀ (i₁ i₂ i₃ e₁ e₂ : String) (r : AIAnalysisResult) (st : RoutingStats),
       ModelRouter.is_valid_result r = true →
       (ModelRouter.analyze_news
           [(i₁, .error e₁), (i₂, .error e₂), (i₃, .ok r)] st).1 = r ∧
       (ModelRouter.analyze_news
           [(i₁, .error e₁), (i₂, .error e₂), (i₃, .ok r)] st).2.2 =
         [RouteEvent.call i₁, RouteEvent.skipError i₁ e₁, RouteEvent.call i₂,
          RouteEvent.skipError i₂ e₂, RouteEvent.call i₃,
          RouteEvent.accept i₃] ∧
       countCalls (ModelRouter.analyze_news
           [(i₁, .error e₁), (i₂, .error e₂), (i₃, .ok r)] st).2.2 = 3 ∧
       (ModelRouter.analyze_news
           [(i₁, .error e₁), (i₂, .error e₂), (i₃, .ok r)] st).2.1.successful_requests =
         st.successful_requests + 1) := by
  refine ⟨?_, ?_, ?_⟩
  · intro id e rest
    rcases hrl : ModelRouter.routeLoop rest with ⟨t, r⟩
    simp [ModelRouter.routeLoop, hrl]
  · intro id res rest hinv
    rcases hrl : ModelRouter.routeLoop rest with ⟨t, r⟩
    simp [ModelRouter.routeLoop, hinv, hrl]
  · intro i₁ i₂ i₃ e₁ e₂ r st hv
    refine ⟨?_, ?_, ?_, ?_⟩ <;>
      simp [ModelRouter.analyze_news, ModelRouter.routeLoop, hv, countCalls,
        List.countP_cons]

/-- Witness for C1 at concrete candidates: the third candidate returns the
(valid) degraded OpenAI result after two raising candidates. -/
theorem C1_failover_chain_witness :
    ModelRouter.is_valid_result (degraded_result .openai "x") = true ∧
    (ModelRouter.analyze_news
        [("a", .error "t1"), ("b", .error "t2"),
         ("c", .ok (degraded_result .openai "x"))] initStats).1 =
      degraded_result .openai "x" ∧
    countCalls (ModelRouter.analyze_news
        [("a", .error "t1"), ("b", .error "t2"),
         ("c", .ok (degraded_result .openai "x"))] initStats).2.2 = 3 :=
  have hv := degraded_result_valid .openai "x"
  ⟨hv,
   (C1_failover_chain.2.2 "a" "b" "c" "t1" "t2" (degraded_result .openai "x")
      initStats hv).1,
   (C1_failover_chain.2.2 "a" "b" "c" "t1" "t2" (degraded_result .openai "x")
      initStats hv).2.2.1⟩

/-- Claim C3: every concrete adapter's `analyze_news` is total — on any
exception from the remote call it returns the degraded result (impact 0.3,
confidence 0.1, neutral sentiment, non-empty prediction and suggestion)
instead of raising; that degraded result passes the Router's
`_is_valid_result`, so the Router accepts the first healthy candidate's
result even when that candidate's remote call failed. -/
theorem C3_adapter_degraded_total :
    (∀ (k : AdapterKind) (e : String),
       adapter_analyze_news k (.error e) = degraded_result k e) ∧
    (∀ (k : AdapterKind) (e : String),
       (degraded_result k e).impact_score = 0.3 ∧
       (degraded_result k e).confidence = 0.1 ∧
       (degraded_result k e).sentiment = Json.str "neutral" ∧
       jsonTruthy (degraded_result k e).market_prediction = true ∧
       jsonTruthy (degraded_result k e).trading_suggestion = true) ∧
    (∀ (k : AdapterKind) (e : String),
       ModelRouter.is_valid_result (degraded_result k e) = true) ∧
    (∀ (k : AdapterKind) (e id : String)
       (rest : List (String × Except String AIAnalysisResult))
       (st : RoutingStats),
       (ModelRouter.analyze_news
           ((id, .ok (adapter_analyze_news k (.error e))) :: rest) st).1 =
         degraded_result k e ∧
       (ModelRouter.analyze_news
           ((id, .ok (adapter_analyze_news k (.error e))) :: rest) st).2.2 =
         [RouteEvent.call id, RouteEvent.accept id] ∧
       (ModelRouter.analyze_news
           ((id, .ok (adapter_analyze_news k (.error e))) :: rest)
           st).2.1.successful_requests = st.successful_requests + 1) := by
  refine ⟨fun k e => rfl, ?_, degraded_result_valid, ?_⟩
  · intro k e
    exact ⟨rfl, rfl, rfl, degraded_market_truthy k e, rfl⟩
  · intro k e id rest st
    refine ⟨?_, ?_, ?_⟩ <;>
      simp [ModelRouter.analyze_news, ModelRouter.routeLoop,
        adapter_analyze_news, degraded_result_valid]

lemma analyze_news_stats_step (cands : List (String × Except String AIAnalysisResult))
    (st : RoutingStats) :
    (ModelRouter.analyze_news cands st).2.1.total_requests =
      st.total_requests + 1 ∧
    (ModelRouter.analyze_news cands st).2.1.successful_requests +
        (ModelRouter.analyze_news cands st).2.1.failed_requests =
      st.successful_requests + st.failed_requests + 1 ∧
    (ModelRouter.analyze_news cands st).2.1.fallback_count =
      st.fallback_count +
        (if !cands.isEmpty && (ModelRouter.routeLoop cands).2.isNone
         then 1 else 0) ∧
    (ModelRouter.analyze_news cands st).2.1.fallback_count +
        st.failed_requests ≤
      st.fallback_count + (ModelRouter.analyze_news cands st).2.1.failed_requests := by
  cases cands with
  | nil => simp [ModelRouter.analyze_news] <;> omega
  | cons a l =>
    rcases hrl : ModelRouter.routeLoop (a :: l) with ⟨t, r⟩
    cases r <;> simp [ModelRouter.analyze_news, hrl] <;> omega

lemma runCalls_invariant
    (seq : List (List (String × Except String AIAnalysisResult)))
    (st : RoutingStats)
    (h1 : st.total_requests = st.successful_requests + st.failed_requests)
    (h2 : st.fallback_count ≤ st.failed_requests) :
    (ModelRouter.runCalls seq st).total_requests =
      (ModelRouter.runCalls seq st).successful_requests +
        (ModelRouter.runCalls seq st).failed_requests ∧
    (ModelRouter.runCalls seq st).fallback_count ≤
      (ModelRouter.runCalls seq st).failed_requests := by
  induction seq generalizing st with
  | nil => exact ⟨h1, h2⟩
  | cons c rest ih =>
    have hstep := analyze_news_stats_step c st
    have hrc : ModelRouter.runCalls (c :: rest) st =
        ModelRouter.runCalls rest (ModelRouter.analyze_news c st).2.1 := rfl
    rw [hrc]
    exact ih _ (by omega) (by omega)

/-- Claim C10: after every sequence of completed `route()` calls the
router counters satisfy `total = successful + failed` and
`fallback_count ≤ failed`; on each call, `fallback_count` is incremented
exactly when the candidate list is non-empty and the loop exhausts it
without a valid result, and in particular not when the candidate list is
empty. -/
theorem C10_router_counters_invariant :
    (∀ (seq : List (List (String × Except String AIAnalysisResult))),
       (ModelRouter.runCalls seq initStats).total_requests =
         (ModelRouter.runCalls seq initStats).successful_requests +
           (ModelRouter.runCalls seq initStats).failed_requests ∧
       (ModelRouter.runCalls seq initStats).fallback_count ≤
         (ModelRouter.runCalls seq initStats).failed_requests) ∧
    (∀ (cands : List (String × Except String AIAnalysisResult))
       (st : RoutingStats),
       (ModelRouter.analyze_news cands st).2.1.fallback_count =
         st.fallback_count +
           (if !cands.isEmpty && (ModelRouter.routeLoop cands).2.isNone
            then 1 else 0)) ∧
    (∀ st : RoutingStats,
       (ModelRouter.analyze_news [] st).2.1.fallback_count =
         st.fallback_count) := by
  refine ⟨fun seq => runCalls_invariant seq initStats rfl (Nat.le_refl 0),
    fun cands st => (analyze_news_stats_step cands st).2.2.1,
    fun st => rfl⟩

lemma build_from_data_spec (kvs : List (String × Json)) (r : AIAnalysisResult)
    (h : BaseAIAdapter.build_from_data kvs = some r) :
    pyFloat (jgetD kvs "impact_score" (.num 0.5)) = some r.impact_score ∧
    pyFloat (jgetD kvs "confidence" (.num 0.5)) = some r.confidence ∧
    r.market_prediction = jgetD kvs "market_prediction" (.str "") ∧
    r.trading_suggestion = jgetD kvs "trading_suggestion" (.str "") ∧
    r.sentiment = jgetD kvs "sentiment" (.str "neutral") ∧
    r.key_points = jgetD kvs "key_points" (.arr []) := by
  unfold BaseAIAdapter.build_from_data at h
  cases hif : pyFloat (jgetD kvs "impact_score" (Json.num 0.5)) with
  | none => rw [hif] at h; exact absurd h (by simp)
  | some iq =>
    cases hcf : pyFloat (jgetD kvs "confidence" (Json.num 0.5)) with
    | none => rw [hif, hcf] at h; exact absurd h (by simp)
    | some cq =>
      rw [hif, hcf] at h
      simp only [Option.some.injEq] at h
      subst h
      exact ⟨rfl, rfl, rfl, rfl, rfl, rfl⟩

/-- Claim C7 (amended): the Normalizer's extraction step is the greedy
regex span — from the first opening brace to the LAST closing brace of the
whole text — not the first balanced span.  For every backend text whose
greedy span decodes as a structured object (with float-coercible numeric
fields), the decode succeeds, the heuristic path is not invoked, and the
result reproduces the decoded fields verbatim with the documented defaults
for missing ones.  A text with further brace characters after the first
balanced span extends the greedy span and, when that extended span is not
well-formed, the parse falls to the heuristic (see the counterexample). -/
theorem C7_greedy_span_round_trip (s t : String)
    (kvs : List (String × Json)) (r : AIAnalysisResult)
    (h1 : BaseAIAdapter.greedyJsonSpan s = some t)
    (h2 : jsonParse t = some (.obj kvs))
    (h3 : BaseAIAdapter.build_from_data kvs = some r) :
    BaseAIAdapter.parse_response s = r ∧
    r.market_prediction = jgetD kvs "market_prediction" (.str "") ∧
    r.trading_suggestion = jgetD kvs "trading_suggestion" (.str "") ∧
    r.sentiment = jgetD kvs "sentiment" (.str "neutral") ∧
    r.key_points = jgetD kvs "key_points" (.arr []) ∧
    pyFloat (jgetD kvs "impact_score" (.num 0.5)) = some r.impact_score ∧
    pyFloat (jgetD kvs "confidence" (.num 0.5)) = some r.confidence := by
  obtain ⟨hi, hc, hm, ht, hs, hk⟩ := build_from_data_spec kvs r h3
  have hp : BaseAIAdapter.parse_response s = r := by
    simp only [BaseAIAdapter.parse_response, h1, h2, h3]
  exact ⟨hp, hm, ht, hs, hk, hi, hc⟩

/-- Witness for C7 on a concrete well-formed response: the decoded
impact is reproduced (0.7) and the missing fields take their defaults. -/
theorem C7_greedy_span_round_trip_witness :
    BaseAIAdapter.parse_response "\x7b\"impact_score\": 0.7\x7d" =
      { impact_score := ((0 : ℕ) : ℚ) + ((7 : ℕ) : ℚ) / (10 : ℚ) ^ (1 : ℕ),
        market_prediction := .str "",
        trading_suggestion := .str "",
        sentiment := .str "neutral",
        confidence := 0.5,
        key_points := .arr [] } ∧
    (BaseAIAdapter.parse_response "\x7b\"impact_score\": 0.7\x7d").impact_score
      = 0.7 := by
  have h := C7_greedy_span_round_trip "\x7b\"impact_score\": 0.7\x7d"
    "\x7b\"impact_score\": 0.7\x7d"
    [("impact_score",
      Json.num (((0 : ℕ) : ℚ) + ((7 : ℕ) : ℚ) / (10 : ℚ) ^ (1 : ℕ)))]
    { impact_score := ((0 : ℕ) : ℚ) + ((7 : ℕ) : ℚ) / (10 : ℚ) ^ (1 : ℕ),
      market_prediction := .str "",
      trading_suggestion := .str "",
      sentiment := .str "neutral",
      confidence := 0.5,
      key_points := .arr [] } rfl rfl rfl
  exact ⟨h.1, by rw [h.1]; norm_num⟩

/-- Claim C7, counterexample: for the text whose first balanced top-level
span `\x7b"impact_score": 0.9\x7d` is well-formed but which contains one
more closing brace after it, the greedy regex extends the span to the
whole text, the decode fails, and — contrary to the claim — the heuristic
fallback IS invoked: the result carries the heuristic's confidence 0.4 and
impact 0.5 instead of the span's 0.9 (and the structured default 0.5
confidence). -/
theorem C7_counterexample_greedy_regex :
    specFirstBalancedSpan "\x7b\"impact_score\": 0.9\x7d\x7d" =
      some "\x7b\"impact_score\": 0.9\x7d" ∧
    (jsonParse "\x7b\"impact_score\": 0.9\x7d").isSome = true ∧
    BaseAIAdapter.greedyJsonSpan "\x7b\"impact_score\": 0.9\x7d\x7d" =
      some "\x7b\"impact_score\": 0.9\x7d\x7d" ∧
    jsonParse "\x7b\"impact_score\": 0.9\x7d\x7d" = none ∧
    BaseAIAdapter.parse_response "\x7b\"impact_score\": 0.9\x7d\x7d" =
      BaseAIAdapter.create_fallback_result
        "\x7b\"impact_score\": 0.9\x7d\x7d" ∧
    (BaseAIAdapter.parse_response
        "\x7b\"impact_score\": 0.9\x7d\x7d").confidence = 0.4 ∧
    (BaseAIAdapter.parse_response
        "\x7b\"impact_score\": 0.9\x7d\x7d").impact_score = 0.5 :=
  ⟨rfl, rfl, rfl, rfl, rfl, rfl, rfl⟩

lemma getD_false_eq_true (o : Option Bool) : o.getD false = true ↔ o = some true := by
  cases o <;> simp

lemma mem_insertByPriority (m a : ModelConfig) (l : List ModelConfig) :
    a ∈ insertByPriority m l ↔ a = m ∨ a ∈ l := by
  induction l with
  | nil => simp [insertByPriority]
  | cons x xs ih =>
    unfold insertByPriority
    split_ifs with h
    · simp [List.mem_cons]
      try tauto
    · simp only [List.mem_cons, ih]
      tauto

lemma mem_sortByPriority (a : ModelConfig) (l : List ModelConfig) :
    a ∈ sortByPriority l ↔ a ∈ l := by
  induction l with
  | nil => simp [sortByPriority]
  | cons x xs ih =>
    simp [sortByPriority, mem_insertByPriority, ih, List.mem_cons]

lemma pairwise_insertByPriority (m : ModelConfig) (l : List ModelConfig)
    (h : l.Pairwise (fun a b => a.priority ≤ b.priority)) :
    (insertByPriority m l).Pairwise (fun a b => a.priority ≤ b.priority) := by
  induction l with
  | nil => simp [insertByPriority]
  | cons x xs ih =>
    rcases List.pairwise_cons.mp h with ⟨hx, hxs⟩
    unfold insertByPriority
    split_ifs with hle
    · refine List.pairwise_cons.mpr ⟨?_, h⟩
      intro b hb
      rcases List.mem_cons.mp hb with rfl | hb
      · exact hle
      · exact le_trans hle (hx b hb)
    · refine List.pairwise_cons.mpr ⟨?_, ih hxs⟩
      intro b hb
      rcases (mem_insertByPriority m b xs).mp hb with rfl | hb
      · omega
      · exact hx b hb

lemma pairwise_sortByPriority (l : List ModelConfig) :
    (sortByPriority l).Pairwise (fun a b => a.priority ≤ b.priority) := by
  induction l with
  | nil => simp [sortByPriority]
  | cons x xs ih => exact pairwise_insertByPriority x (sortByPriority xs) ih

lemma filter_insertByPriority (p₀ : ℕ) (m : ModelConfig) (l : List ModelConfig) :
    (insertByPriority m l).filter (fun x => x.priority == p₀) =
      if m.priority == p₀ then m :: l.filter (fun x => x.priority == p₀)
      else l.filter (fun x => x.priority == p₀) := by
  induction l with
  | nil => simp [insertByPriority, List.filter_cons]
  | cons x xs ih =>
    unfold insertByPriority
    by_cases hle : m.priority ≤ x.priority
    · rw [if_pos hle]
      simp only [List.filter_cons]
    · rw [if_neg hle]
      simp only [List.filter_cons, ih]
      by_cases hm : (m.priority == p₀) <;> by_cases hx : (x.priority == p₀) <;>
        simp only [hm, hx, if_pos, if_neg, Bool.false_eq_true,
          not_false_eq_true, if_true, if_false]
      · exfalso
        apply hle
        have hx' : x.priority = p₀ := by simpa using hx
        have hm' : m.priority = p₀ := by simpa using hm
        omega

lemma filter_sortByPriority (p₀ : ℕ) (l : List ModelConfig) :
    (sortByPriority l).filter (fun x => x.priority == p₀) =
      l.filter (fun x => x.priority == p₀) := by
  induction l with
  | nil => rfl
  | cons x xs ih =>
    rw [sortByPriority, filter_insertByPriority, ih, List.filter_cons]

lemma filter_comm {α : Type} (l : List α) (p q : α → Bool) :
    (l.filter p).filter q = (l.filter q).filter p := by
  rw [List.filter_filter, List.filter_filter]
  exact List.filter_congr fun a _ => Bool.and_comm _ _

/-- Claim C8: the candidate list built for each `route()` call contains
exactly the configured models that are enabled, have an initialized
adapter, and are currently marked healthy; it is ordered ascending by
priority; ties are broken by configuration order (the equal-priority
subsequence of the candidates equals the equal-priority subsequence of the
raw configuration, filtered the same way); and a first healthy candidate
that yields a valid result short-circuits the loop, so the second
candidate is never invoked (one capability call, no event naming it). -/
theorem C8_candidate_list :
    (∀ (m : ModelConfig) (models : List ModelConfig)
       (adapters : List (String × Bool)),
       m ∈ ModelRouter.get_healthy_adapters models adapters ↔
         m ∈ models ∧ m.enabled = true ∧
           List.lookup m.id adapters = some true) ∧
    (∀ (models : List ModelConfig) (adapters : List (String × Bool)),
       (ModelRouter.get_healthy_adapters models adapters).Pairwise
         (fun a b => a.priority ≤ b.priority)) ∧
    (∀ (p₀ : ℕ) (models : List ModelConfig)
       (adapters : List (String × Bool)),
       (ModelRouter.get_healthy_adapters models adapters).filter
           (fun m => m.priority == p₀) =
         models.filter
           (fun m => m.enabled &&
             (List.lookup m.id adapters).getD false && (m.priority == p₀))) ∧
    (∀ (i₁ i₂ : String) (r : AIAnalysisResult)
       (out₂ : Except String AIAnalysisResult) (st : RoutingStats),
       ModelRouter.is_valid_result r = true →
       (ModelRouter.analyze_news [(i₁, .ok r), (i₂, out₂)] st).2.2 =
         [RouteEvent.call i₁, RouteEvent.accept i₁] ∧
       (ModelRouter.analyze_news [(i₁, .ok r), (i₂, out₂)] st).1 = r ∧
       countCalls
         (ModelRouter.analyze_news [(i₁, .ok r), (i₂, out₂)] st).2.2 = 1) := by
  refine ⟨?_, ?_, ?_, ?_⟩
  · intro m models adapters
    unfold ModelRouter.get_healthy_adapters ConfigManager.get_ai_models
    rw [List.mem_filter, mem_sortByPriority, List.mem_filter]
    simp [getD_false_eq_true, and_assoc]
  · intro models adapters
    exact (pairwise_sortByPriority _).sublist (List.filter_sublist _)
  · intro p₀ models adapters
    unfold ModelRouter.get_healthy_adapters ConfigManager.get_ai_models
    rw [filter_comm, filter_sortByPriority, List.filter_filter,
      List.filter_filter]
    refine List.filter_congr fun a _ => ?_
    cases ha : a.enabled <;>
      cases hh : (List.lookup a.id adapters).getD false <;>
        cases hp : (a.priority == p₀) <;> rfl
  · intro i₁ i₂ r out₂ st hv
    refine ⟨?_, ?_, ?_⟩ <;>
      simp [ModelRouter.analyze_news, ModelRouter.routeLoop, hv, countCalls,
        List.countP_cons]

/-- Witness for C8's short-circuit clause: a concrete valid first
candidate yields exactly one call and no event naming the second. -/
theorem C8_candidate_list_witness :
    (ModelRouter.analyze_news
        [("p1", .ok (degraded_result .claude "y")), ("p2", .error "boom")]
        initStats).2.2 = [RouteEvent.call "p1", RouteEvent.accept "p1"] ∧
    (ModelRouter.analyze_news
        [("p1", .ok (degraded_result .claude "y")), ("p2", .error "boom")]
        initStats).1 = degraded_result .claude "y" :=
  have hv := degraded_result_valid .claude "y"
  ⟨(C8_candidate_list.2.2.2 "p1" "p2" (degraded_result .claude "y")
      (.error "boom") initStats hv).1,
   (C8_candidate_list.2.2.2 "p1" "p2" (degraded_result .claude "y")
      (.error "boom") initStats hv).2.1⟩
